import Mathlib

/-!
# Verification of the hotmike.app live-compositing pipeline

Shallow embedding, in Lean 4, of the state machines and pure algorithms of the
hotmike.app frontend that the specification's testable properties talk about:

* the suggestion queue of `AIContext.tsx`
  (`addSuggestion` / `acceptSuggestion` / `dismissSuggestion` /
  `nextSuggestion` / `prevSuggestion`);
* the voice-command matcher of `useVoiceCommands.ts` (wake-word regular
  expressions, segment-growth scan, rolling-window re-scan, 2 s cooldown);
* the recording duration bookkeeping of `useMediaRecorder.ts`;
* the stream acquisition logic of `useMediaDevices.ts`
  (`requestWebcam` / `requestScreen`);
* the crop / picture-in-picture / overlay geometry of `compositor.ts`;
* the reconnection policy of `TranscriptionWebSocket` (`api.ts`) and of the
  `useTranscriptionWebSocket` hook.

JavaScript numbers appearing in the embedded fragments are modelled as `Int`
(millisecond timestamps, queue indices: all arithmetic in those fragments is
exact integer arithmetic, with `%` being JavaScript's truncating remainder,
i.e. `Int.tmod`) or as `ℚ` (the compositor's crop geometry, where division is
exact on the values involved and the spec asks for the rational statement).
-/

set_option maxHeartbeats 1000000

namespace HotMike

/-! ## Suggestion queue (`AIContext.tsx`)

State of the suggestion queue: the list of suggestions and the
`currentSuggestionIndex` pointer.  The pointer is an `Int` because the
JavaScript arithmetic in `dismissSuggestion` (`Math.min(prev, newLength - 1)`)
can produce negative values.

In the source, `addSuggestion` assigns the id internally:
`generateId('suggestion')` returns `` `suggestion-${Date.now()}-${++suggestionIdCounter}` ``.
Since the counter is strictly increasing, distinct calls always produce
distinct id strings, and the queue operations compare ids only for equality;
we therefore model the generated id by the counter value itself (a `Nat`),
carried in the state as `idCounter`.  Payload fields other than the id
(`text`, `imageUrl`, `searchQuery`, `source`, `timestamp`) are never inspected
by the queue operations; we keep `text` as a representative.
-/

structure Suggestion where
  id : Nat
  text : String
  deriving DecidableEq, Repr

structure SuggestionQueueState where
  suggestions : List Suggestion
  currentSuggestionIndex : Int
  idCounter : Nat
  deriving DecidableEq, Repr

def initialQueue : SuggestionQueueState :=
  { suggestions := [], currentSuggestionIndex := 0, idCounter := 0 }

/-- Source `addSuggestion`: appends a suggestion with a freshly generated id
(`++suggestionIdCounter`, a pre-increment).  The pointer is not touched. -/
def addSuggestion (text : String) (st : SuggestionQueueState) : SuggestionQueueState :=
  { st with
    suggestions := st.suggestions ++ [{ id := st.idCounter + 1, text := text }]
    idCounter := st.idCounter + 1 }

/-- Source `acceptSuggestion(id)`: removes every entry whose id matches, and sets the
pointer to `Math.max(0, prev - 1)`. -/
def acceptSuggestion (sid : Nat) (st : SuggestionQueueState) : SuggestionQueueState :=
  { st with
    suggestions := st.suggestions.filter (fun s => s.id ≠ sid)
    currentSuggestionIndex := max 0 (st.currentSuggestionIndex - 1) }

/-- Source `dismissSuggestion(id)`: removes every entry whose id matches; the pointer
update computes `newLength = suggestions.length - 1` from the length *before*
filtering (regardless of whether anything matched) and sets the pointer to `0`
if `newLength === 0`, else to `Math.min(prev, newLength - 1)`. -/
def dismissSuggestion (sid : Nat) (st : SuggestionQueueState) : SuggestionQueueState :=
  let newLength : Int := (st.suggestions.length : Int) - 1
  { st with
    suggestions := st.suggestions.filter (fun s => s.id ≠ sid)
    currentSuggestionIndex :=
      if newLength = 0 then 0 else min st.currentSuggestionIndex (newLength - 1) }

/-- Source `nextSuggestion`: `(prev + 1) % suggestions.length` when the list is
nonempty, else `0`.  JavaScript's `%` is the truncating remainder `Int.tmod`. -/
def nextSuggestion (st : SuggestionQueueState) : SuggestionQueueState :=
  { st with
    currentSuggestionIndex :=
      if 0 < st.suggestions.length then
        Int.tmod (st.currentSuggestionIndex + 1) (st.suggestions.length : Int)
      else 0 }

/-- Source `prevSuggestion`: `(prev - 1 + suggestions.length) % suggestions.length`
when the list is nonempty, else `0`. -/
def prevSuggestion (st : SuggestionQueueState) : SuggestionQueueState :=
  { st with
    currentSuggestionIndex :=
      if 0 < st.suggestions.length then
        Int.tmod (st.currentSuggestionIndex - 1 + (st.suggestions.length : Int))
          (st.suggestions.length : Int)
      else 0 }

/-- Source `clearSuggestions`: empties the list and resets the pointer. -/
def clearSuggestions (st : SuggestionQueueState) : SuggestionQueueState :=
  { st with suggestions := [], currentSuggestionIndex := 0 }

inductive QueueOp
  | add (text : String)
  | accept (sid : Nat)
  | dismiss (sid : Nat)
  | next
  | prev
  deriving DecidableEq, Repr

def queueStep (st : SuggestionQueueState) (op : QueueOp) : SuggestionQueueState :=
  match op with
  | .add t => addSuggestion t st
  | .accept i => acceptSuggestion i st
  | .dismiss i => dismissSuggestion i st
  | .next => nextSuggestion st
  | .prev => prevSuggestion st

def runQueue (ops : List QueueOp) (st : SuggestionQueueState) : SuggestionQueueState :=
  ops.foldl queueStep st

/-- The pointer invariant of spec §3 / §8.3: `0 ≤ current < length` whenever
`length > 0`, and `current = 0` whenever `length = 0`. -/
def queueInv (st : SuggestionQueueState) : Prop :=
  (0 < st.suggestions.length →
      0 ≤ st.currentSuggestionIndex ∧
        st.currentSuggestionIndex < (st.suggestions.length : Int)) ∧
    (st.suggestions.length = 0 → st.currentSuggestionIndex = 0)

instance (st : SuggestionQueueState) : Decidable (queueInv st) := by
  unfold queueInv; infer_instance

/-- Auxiliary invariant maintained by the id generator: every id in the queue
is at most the counter, and ids are pairwise distinct. -/
def idsOk (st : SuggestionQueueState) : Prop :=
  (st.suggestions.map Suggestion.id).Nodup ∧
    ∀ s ∈ st.suggestions, s.id ≤ st.idCounter

/-- A trace is dismiss-safe if every `dismiss` in it is executed in a state
with a nonempty queue. -/
def dismissSafe (st : SuggestionQueueState) : List QueueOp → Bool
  | [] => true
  | op :: ops =>
    (match op with
      | QueueOp.dismiss _ => decide (st.suggestions ≠ [])
      | _ => true) &&
      dismissSafe (queueStep st op) ops

/-! ## Stream acquisition (`useMediaDevices.ts`)

`requestWebcam` / `requestScreen`: if a stream of that kind is already held in
the ref, every one of its tracks is stopped first; then the platform is asked
for a new stream.  On success the ref is replaced by the new stream and
`error` is cleared; on failure a human-readable message is stored in `error`
and the exception is rethrown — the ref is *not* cleared (it still points at
the old, now-stopped stream).

Tracks are identified by `Nat` ids.  A `MediaStream` is its list of track
ids; a track is live unless it appears in the `stopped` set.  The platform's
response to an acquisition request is modelled by an `Except` parameter:
`.ok tracks` is a successful `getUserMedia` / `getDisplayMedia` resolution,
`.error msg` a rejection carrying the `err.message` string.
-/

structure MediaDevicesState where
  webcamRef : Option (List Nat)
  screenRef : Option (List Nat)
  stopped : List Nat
  error : Option String
  deriving DecidableEq, Repr

def initialMediaDevices : MediaDevicesState :=
  { webcamRef := none, screenRef := none, stopped := [], error := none }

/-- A track id is live iff it has never been `stop()`ed. -/
def trackLive (st : MediaDevicesState) (track : Nat) : Prop :=
  track ∉ st.stopped

instance (st : MediaDevicesState) (track : Nat) : Decidable (trackLive st track) := by
  unfold trackLive; infer_instance

/-- Source `stream.getTracks().forEach(track => track.stop())`. -/
def stopTracks (tracks : List Nat) (st : MediaDevicesState) : MediaDevicesState :=
  { st with stopped := st.stopped ++ tracks }

/-- Source `requestWebcam`: stop the existing webcam tracks (if any), then await the
platform.  `outcome` is the platform's response. -/
def requestWebcam (outcome : Except String (List Nat)) (st : MediaDevicesState) :
    MediaDevicesState :=
  let st₁ := match st.webcamRef with
    | some tracks => stopTracks tracks st
    | none => st
  match outcome with
  | .ok tracks => { st₁ with webcamRef := some tracks, error := none }
  | .error msg => { st₁ with error := some msg }

/-- Source `requestScreen`: same shape as `requestWebcam` for the screen ref. -/
def requestScreen (outcome : Except String (List Nat)) (st : MediaDevicesState) :
    MediaDevicesState :=
  let st₁ := match st.screenRef with
    | some tracks => stopTracks tracks st
    | none => st
  match outcome with
  | .ok tracks => { st₁ with screenRef := some tracks, error := none }
  | .error msg => { st₁ with error := some msg }

/-- The catch branch's human-readable fallback when the thrown value is not an
`Error`: `'Failed to access webcam'`. -/
def webcamErrorFallback : String := "Failed to access webcam"

/-! ## Compositor geometry (`compositor.ts`) -/

def CANVAS_WIDTH : ℚ := 1920
def CANVAS_HEIGHT : ℚ := 1080

/-- Source `PIP_SIZES`: circle PIP diameters. -/
inductive PIPSize
  | small
  | medium
  | large
  deriving DecidableEq, Repr

def pipSizes : PIPSize → Int
  | .small => 200
  | .medium => 280
  | .large => 360

def PIP_MARGIN : Int := 32

inductive PIPPosition
  | topLeft
  | topRight
  | bottomLeft
  | bottomRight
  deriving DecidableEq, Repr

/-- Source `Compositor.getPIPPosition`: the top-left corner of the PIP square as a
function of the configured position and the diameter. -/
def getPIPPosition (pos : PIPPosition) (diameter : Int) : Int × Int :=
  match pos with
  | .topLeft => (PIP_MARGIN, PIP_MARGIN)
  | .topRight => (1920 - diameter - PIP_MARGIN, PIP_MARGIN)
  | .bottomLeft => (PIP_MARGIN, 1080 - diameter - PIP_MARGIN)
  | .bottomRight => (1920 - diameter - PIP_MARGIN, 1080 - diameter - PIP_MARGIN)

/-- Exact-margin condition for a PIP square with top-left `p` and side `d`:
distance `PIP_MARGIN` from each of the two canvas edges named by the
position. -/
def pipMarginsExact (pos : PIPPosition) (p : Int × Int) (d : Int) : Prop :=
  match pos with
  | .topLeft => p.1 = PIP_MARGIN ∧ p.2 = PIP_MARGIN
  | .topRight => 1920 - (p.1 + d) = PIP_MARGIN ∧ p.2 = PIP_MARGIN
  | .bottomLeft => p.1 = PIP_MARGIN ∧ 1080 - (p.2 + d) = PIP_MARGIN
  | .bottomRight => 1920 - (p.1 + d) = PIP_MARGIN ∧ 1080 - (p.2 + d) = PIP_MARGIN

instance (pos : PIPPosition) (p : Int × Int) (d : Int) :
    Decidable (pipMarginsExact pos p d) := by
  unfold pipMarginsExact
  cases pos <;> infer_instance

/-- The source crop rectangle computed by `Compositor.drawVideoFullFrame` for
a ready video of resolution `w × h`: aspect-fill against the
`1920 / 1080` canvas aspect.  Returns `(sx, sy, sw, sh)`. -/
def fullFrameCrop (w h : ℚ) : ℚ × ℚ × ℚ × ℚ :=
  let canvasAspect := CANVAS_WIDTH / CANVAS_HEIGHT
  let videoAspect := w / h
  if videoAspect > canvasAspect then
    let sw := h * canvasAspect
    (((w - sw) / 2 : ℚ), 0, sw, h)
  else
    let sh := w / canvasAspect
    (0, ((h - sh) / 2 : ℚ), w, sh)

/-- Overlay slot of the compositor: the loaded image (by URL) plus its draw
options.  `setOverlayOptions` merges partial updates; `setOverlayImage` only
ever writes the image field. -/
structure OverlayOptions where
  opacity : ℚ
  scale : ℚ
  deriving DecidableEq, Repr

structure CompositorOverlayState where
  overlayImage : Option String
  overlayOptions : OverlayOptions
  deriving DecidableEq, Repr

/-- Source `Compositor.setOverlayImage(url)`.  `load` is the browser's image loader:
`some url'`-style success is modelled as `true` (the `onload` path), `false`
as the `onerror` path.  Returns the state after the call together with the
promise outcome. -/
def setOverlayImage (load : String → Bool) (url : Option String)
    (st : CompositorOverlayState) : CompositorOverlayState × Except String Unit :=
  match url with
  | none => ({ st with overlayImage := none }, .ok ())
  | some u =>
    if load u then
      ({ st with overlayImage := some u }, .ok ())
    else
      (st, .error "Failed to load overlay image")

/-! ## Transcription channel reconnection (`api.ts` and
`useTranscriptionWebSocket.ts`)

`TranscriptionWebSocket` (the class in `api.ts`) keeps `reconnectAttempts`
with `maxReconnectAttempts = 5` and `reconnectDelay = 1000`.  Its `onclose`
handler calls `attemptReconnect()` unless the close code is `1000` (normal)
or `4001` (auth rejected); `attemptReconnect` gives up once
`reconnectAttempts ≥ maxReconnectAttempts`, otherwise increments the counter
and schedules a `connect()` after `reconnectDelay * 2^(reconnectAttempts - 1)`
ms.  `onopen` resets `reconnectAttempts` to `0`.

The `useTranscriptionWebSocket` hook's `onclose` handler instead schedules a
single reconnect after a fixed 2000 ms whenever the feature is enabled and a
session id is present, for any close code other than `1000` and `4001`.
-/

def maxReconnectAttempts : Nat := 5
def reconnectDelay : Nat := 1000

structure WSClient where
  reconnectAttempts : Nat
  deriving DecidableEq, Repr

def initialWSClient : WSClient := { reconnectAttempts := 0 }

/-- Source `attemptReconnect`: returns the new client state and the delay (ms) of the
scheduled reconnect, or `none` when the cap is reached and nothing is
scheduled. -/
def attemptReconnect (c : WSClient) : WSClient × Option Nat :=
  if c.reconnectAttempts ≥ maxReconnectAttempts then
    (c, none)
  else
    let n := c.reconnectAttempts + 1
    ({ reconnectAttempts := n }, some (reconnectDelay * 2 ^ (n - 1)))

/-- The `onclose` handler of `TranscriptionWebSocket.connect`: reconnect on
any close code other than 1000 and 4001. -/
def wsHandleClose (code : Nat) (c : WSClient) : WSClient × Option Nat :=
  if code ≠ 1000 ∧ code ≠ 4001 then attemptReconnect c else (c, none)

/-- The `onopen` handler: `reconnectAttempts = 0`. -/
def wsHandleOpen (_c : WSClient) : WSClient := { reconnectAttempts := 0 }

/-- Process a sequence of close events, collecting the scheduled delay (or
`none`) for each. -/
def wsRunCloses (codes : List Nat) (c : WSClient) : WSClient × List (Option Nat) :=
  match codes with
  | [] => (c, [])
  | code :: rest =>
    let (c', d) := wsHandleClose code c
    let (c'', ds) := wsRunCloses rest c'
    (c'', d :: ds)

/-- The `onclose` handler of the `useTranscriptionWebSocket` hook: a single
fixed-delay (2000 ms) reconnect when enabled with a live session and the code
is neither 1000 nor 4001. -/
def hookHandleClose (enabled hasSession : Bool) (code : Nat) : Option Nat :=
  if enabled ∧ hasSession ∧ code ≠ 1000 ∧ code ≠ 4001 then some 2000 else none

/-! ## Recording duration (`useMediaRecorder.ts`)

`startRecording` stores `startTimeRef.current = Date.now()` and starts a
100 ms interval that displays `(Date.now() - startTimeRef.current) / 1000`.
`pauseRecording` / `resumeRecording` only call `MediaRecorder.pause()` /
`.resume()` when the recorder is in the matching state and flip `isPaused`;
neither touches `startTimeRef` or the interval.  `stopRecording` stops the
recorder; the `onstop` handler reports
`finalDuration = (Date.now() - startTimeRef.current) / 1000`.

All times are in integer milliseconds; reported durations are in seconds as
exact rationals.
-/

/-- The `MediaRecorder.state` values. -/
inductive MRState
  | inactive
  | recording
  | paused
  deriving DecidableEq, Repr

structure RecorderSession where
  recState : MRState
  isRecording : Bool
  isPaused : Bool
  startTime : Int
  duration : ℚ
  deriving DecidableEq, Repr

def initialRecorder : RecorderSession :=
  { recState := .inactive, isRecording := false, isPaused := false
    startTime := 0, duration := 0 }

/-- Source `startRecording` at wall-clock time `t` (ms). -/
def startRecording (t : Int) (s : RecorderSession) : RecorderSession :=
  { s with recState := .recording, isRecording := true, isPaused := false
           startTime := t, duration := 0 }

/-- One firing of the 100 ms duration interval at wall-clock time `t`:
`duration = (Date.now() - startTimeRef.current) / 1000`, regardless of pause
state. -/
def durationTick (t : Int) (s : RecorderSession) : RecorderSession :=
  { s with duration := ((t : ℚ) - (s.startTime : ℚ)) / 1000 }

/-- Source `pauseRecording`: only acts when the recorder state is `recording`. -/
def pauseRecording (s : RecorderSession) : RecorderSession :=
  if s.recState = .recording then
    { s with recState := .paused, isPaused := true }
  else s

/-- Source `resumeRecording`: only acts when the recorder state is `paused`. -/
def resumeRecording (s : RecorderSession) : RecorderSession :=
  if s.recState = .paused then
    { s with recState := .recording, isPaused := false }
  else s

/-- Source `stopRecording` at wall-clock time `t`, fused with the `onstop` handler:
the reported final duration is `(Date.now() - startTimeRef.current) / 1000`. -/
def stopRecording (t : Int) (s : RecorderSession) : RecorderSession × ℚ :=
  ({ s with recState := .inactive, isRecording := false, isPaused := false },
    ((t : ℚ) - (s.startTime : ℚ)) / 1000)


/-! ## Voice commands (`useVoiceCommands.ts`)

The wake-word patterns are JavaScript regular expressions with the `/i` flag,
tested unanchored via `RegExp.prototype.test`.  We embed a small
Brzozowski-derivative matcher covering exactly the constructs those patterns
use: literals, the `\s` class, the `[,.]` class, grouping/alternation, `?`
(as alternation with the empty word) and `*`. -/

inductive RE
  | fail
  | eps
  | anyChar
  | lit (c : Char)
  | cls (cs : List Char)
  | ws
  | alt (a b : RE)
  | cat (a b : RE)
  | star (a : RE)
  deriving DecidableEq, Repr

def RE.nullable : RE → Bool
  | .fail => false
  | .eps => true
  | .anyChar => false
  | .lit _ => false
  | .cls _ => false
  | .ws => false
  | .alt a b => a.nullable || b.nullable
  | .cat a b => a.nullable && b.nullable
  | .star _ => true

/-- JavaScript `\s` restricted to the whitespace characters that can occur in
transcript text. -/
def isWsChar (c : Char) : Bool :=
  c = ' ' || c = '\t' || c = '\n' || c = '\r'

/-- Smart alternation: drops the failing branch to keep derivatives small. -/
def RE.altS : RE → RE → RE
  | .fail, b => b
  | a, .fail => a
  | a, b => .alt a b

/-- Smart concatenation: absorbs `fail` and drops `eps`. -/
def RE.catS : RE → RE → RE
  | .fail, _ => .fail
  | _, .fail => .fail
  | .eps, b => b
  | a, .eps => a
  | a, b => .cat a b

def RE.deriv (c : Char) : RE → RE
  | .fail => .fail
  | .eps => .fail
  | .anyChar => .eps
  | .lit d => if c = d then .eps else .fail
  | .cls cs => if cs.contains c then .eps else .fail
  | .ws => if isWsChar c then .eps else .fail
  | .alt a b => RE.altS (a.deriv c) (b.deriv c)
  | .cat a b =>
    if a.nullable then RE.altS (RE.catS (a.deriv c) b) (b.deriv c)
    else RE.catS (a.deriv c) b
  | .star a => RE.catS (a.deriv c) (.star a)

/-- Whole-list match by iterated derivatives. -/
def RE.matchList (r : RE) (cs : List Char) : Bool :=
  (cs.foldl (fun r c => r.deriv c) r).nullable

/-- Source `RegExp.prototype.test`: unanchored search.  The `/i` flag is realised by
lowercasing the input (every pattern is written in lowercase). -/
def RE.test (r : RE) (s : String) : Bool :=
  RE.matchList (RE.cat (RE.star RE.anyChar) (RE.cat r (RE.star RE.anyChar)))
    (s.data.map Char.toLower)

def REstr (s : String) : RE :=
  s.data.foldr (fun c r => RE.cat (RE.lit c) r) RE.eps

def REseq (rs : List RE) : RE := rs.foldr RE.cat RE.eps

/-- Optional element: `x?` as `(x|ε)`. -/
def REopt (r : RE) : RE := RE.alt r RE.eps

def wsStar : RE := RE.star RE.ws

/-- Punctuation class `[,.]?`. -/
def punct : RE := REopt (RE.cls [',', '.'])

/-- The callbacks of `VoiceCommandCallbacks`, in the priority order of
`WAKE_WORD_PATTERNS` (`show`, `next`, `clear`, `dismiss`). -/
inductive VoiceCommand
  | onShow
  | onNext
  | onClear
  | onDismiss
  deriving DecidableEq, Repr

/-- Source `WAKE_WORD_PATTERNS.show`:
`/hey\s*mike[,.]?\s*(show\s*that|insert|add)/i`, `/hey\s*mike[,.]?\s*show/i`,
`/mike[,.]?\s*show\s*that/i`. -/
def showPatterns : List RE :=
  [ REseq [REstr "hey", wsStar, REstr "mike", punct, wsStar,
      RE.alt (REseq [REstr "show", wsStar, REstr "that"])
        (RE.alt (REstr "insert") (REstr "add"))],
    REseq [REstr "hey", wsStar, REstr "mike", punct, wsStar, REstr "show"],
    REseq [REstr "mike", punct, wsStar, REstr "show", wsStar, REstr "that"] ]

/-- Source `WAKE_WORD_PATTERNS.next`: `/hey\s*mike[,.]?\s*next/i`,
`/mike[,.]?\s*next\s*(one|suggestion)?/i`. -/
def nextPatterns : List RE :=
  [ REseq [REstr "hey", wsStar, REstr "mike", punct, wsStar, REstr "next"],
    REseq [REstr "mike", punct, wsStar, REstr "next", wsStar,
      REopt (RE.alt (REstr "one") (REstr "suggestion"))] ]

/-- Source `WAKE_WORD_PATTERNS.clear`: `/hey\s*mike[,.]?\s*clear/i`,
`/mike[,.]?\s*clear\s*(that|it|overlay)?/i`, `/hey\s*mike[,.]?\s*remove/i`. -/
def clearPatterns : List RE :=
  [ REseq [REstr "hey", wsStar, REstr "mike", punct, wsStar, REstr "clear"],
    REseq [REstr "mike", punct, wsStar, REstr "clear", wsStar,
      REopt (RE.alt (REstr "that") (RE.alt (REstr "it") (REstr "overlay")))],
    REseq [REstr "hey", wsStar, REstr "mike", punct, wsStar, REstr "remove"] ]

/-- Source `WAKE_WORD_PATTERNS.dismiss`: `/hey\s*mike[,.]?\s*dismiss/i`,
`/mike[,.]?\s*dismiss/i`, `/hey\s*mike[,.]?\s*skip/i`,
`/mike[,.]?\s*skip\s*(that|it)?/i`. -/
def dismissPatterns : List RE :=
  [ REseq [REstr "hey", wsStar, REstr "mike", punct, wsStar, REstr "dismiss"],
    REseq [REstr "mike", punct, wsStar, REstr "dismiss"],
    REseq [REstr "hey", wsStar, REstr "mike", punct, wsStar, REstr "skip"],
    REseq [REstr "mike", punct, wsStar, REstr "skip", wsStar,
      REopt (RE.alt (REstr "that") (REstr "it"))] ]

def wakeWordPatterns : List (VoiceCommand × List RE) :=
  [(.onShow, showPatterns), (.onNext, nextPatterns),
   (.onClear, clearPatterns), (.onDismiss, dismissPatterns)]

/-- Source `detectCommand`: the commands are scanned in the insertion order of
`WAKE_WORD_PATTERNS`; the first pattern that tests positive decides. -/
def detectCommand (text : String) : Option VoiceCommand :=
  (wakeWordPatterns.find? (fun p => p.2.any (fun r => r.test text))).map (·.1)

/-- State of a `useVoiceCommands` run (with `enabled = true` throughout):
the shared transcript (arrival-ordered `(timestamp ms, text)` pairs),
`lastProcessedIndex`, the time until which `cooldownRef` stays set, and the
accumulated callback firings. -/
structure VoiceState where
  transcript : List (Int × String)
  lastProcessedIndex : Nat
  cooldownUntil : Int
  fires : List (Int × VoiceCommand)
  deriving DecidableEq, Repr

def initialVoice : VoiceState :=
  { transcript := [], lastProcessedIndex := 0, cooldownUntil := 0, fires := [] }

/-- Source `executeCommand` at time `t`: a no-op while `cooldownRef` is set
(`t < cooldownUntil`); otherwise the callback fires and
`setTimeout(..., 2000)` keeps the flag set until `t + 2000`. -/
def executeCommand (t : Int) (cmd : VoiceCommand) (st : VoiceState) : VoiceState :=
  if t < st.cooldownUntil then st
  else { st with cooldownUntil := t + 2000, fires := st.fires ++ [(t, cmd)] }

/-- Source `getRecentTranscript(windowMs)` evaluated at time `t`: texts of the
segments with `timestamp ≥ t - windowMs`, joined by single spaces. -/
def getRecentTranscript (t windowMs : Int) (transcript : List (Int × String)) : String :=
  String.intercalate " "
    ((transcript.filter (fun s => t - windowMs ≤ s.1)).map (·.2))

/-- Arrival of a transcript segment at time `t`, immediately followed by the
segment-growth effect: the newly appended segments' texts are joined with
spaces and tested once. -/
def appendSegment (t : Int) (text : String) (st : VoiceState) : VoiceState :=
  let st₁ := { st with transcript := st.transcript ++ [(t, text)] }
  let newSegments := st₁.transcript.drop st₁.lastProcessedIndex
  let st₂ := { st₁ with lastProcessedIndex := st₁.transcript.length }
  let recentText := String.intercalate " " (newSegments.map (·.2))
  match detectCommand recentText with
  | some cmd => executeCommand t cmd st₂
  | none => st₂

/-- One firing of the 3-second `setInterval` at time `t`: re-scan the rolling
5000 ms window. -/
def checkWindow (t : Int) (st : VoiceState) : VoiceState :=
  match detectCommand (getRecentTranscript t 5000 st.transcript) with
  | some cmd => executeCommand t cmd st
  | none => st

inductive VoiceEvent
  | segment (t : Int) (text : String)
  | tick (t : Int)
  deriving DecidableEq, Repr

def voiceStep (st : VoiceState) (e : VoiceEvent) : VoiceState :=
  match e with
  | .segment t text => appendSegment t text st
  | .tick t => checkWindow t st

def runVoice (events : List VoiceEvent) (st : VoiceState) : VoiceState :=
  events.foldl voiceStep st

/-- With pairwise-distinct ids, filtering out one id removes at most one
element. -/
theorem length_le_filter_id_add_one (sid : Nat) :
    ∀ l : List Suggestion, (l.map Suggestion.id).Nodup →
      l.length ≤ (l.filter (fun s => s.id ≠ sid)).length + 1 := by
  intro l
  induction l with
  | nil => simp
  | cons a l ih =>
    intro hnd
    rw [List.map_cons, List.nodup_cons] at hnd
    rw [List.filter_cons]
    by_cases ha : a.id = sid
    · rw [if_neg (by simp [ha])]
      have hall : l.filter (fun s => s.id ≠ sid) = l := by
        apply List.filter_eq_self.mpr
        intro x hx
        simp only [ne_eq, decide_eq_true_eq]
        intro hx'
        apply hnd.1
        rw [ha, ← hx']
        exact List.mem_map_of_mem Suggestion.id hx
      rw [hall]
      simp
    · rw [if_pos (by simp [ha])]
      have := ih hnd.2
      simp only [List.length_cons]
      omega

theorem filter_id_length_le (sid : Nat) (l : List Suggestion) :
    (l.filter (fun s => s.id ≠ sid)).length ≤ l.length :=
  List.length_filter_le _ l

theorem idsOk_step (st : SuggestionQueueState) (op : QueueOp) (h : idsOk st) :
    idsOk (queueStep st op) := by
  obtain ⟨hnd, hbd⟩ := h
  cases op with
  | add t =>
    constructor
    · simp only [queueStep, addSuggestion, List.map_append, List.map_cons, List.map_nil]
      rw [List.nodup_append]
      refine ⟨hnd, List.nodup_singleton _, ?_⟩
      intro x hx
      simp only [List.mem_singleton]
      obtain ⟨s, hs, rfl⟩ := List.mem_map.mp hx
      have := hbd s hs
      intro hcontra
      omega
    · intro s hs
      simp only [queueStep, addSuggestion, List.mem_append, List.mem_singleton] at hs
      rcases hs with hs | rfl
      · exact (hbd s hs).trans (Nat.le_succ _)
      · simp [queueStep, addSuggestion]
  | accept i =>
    refine ⟨hnd.sublist ((List.filter_sublist _).map Suggestion.id), ?_⟩
    intro s hs
    exact hbd s (List.mem_of_mem_filter hs)
  | dismiss i =>
    refine ⟨hnd.sublist ((List.filter_sublist _).map Suggestion.id), ?_⟩
    intro s hs
    exact hbd s (List.mem_of_mem_filter hs)
  | next => exact ⟨hnd, hbd⟩
  | prev => exact ⟨hnd, hbd⟩

theorem queueInv_step (st : SuggestionQueueState) (op : QueueOp)
    (hinv : queueInv st) (hids : idsOk st)
    (hop : ∀ i, op = QueueOp.dismiss i → st.suggestions ≠ []) :
    queueInv (queueStep st op) := by
  obtain ⟨hpos, hzero⟩ := hinv
  cases op with
  | add t =>
    constructor
    · intro _
      simp only [queueStep, addSuggestion, List.length_append, List.length_cons,
        List.length_nil]
      rcases Nat.eq_zero_or_pos st.suggestions.length with h0 | h1
      · have := hzero h0
        constructor <;> omega
      · have := hpos h1
        constructor <;> [omega; (push_cast; omega)]
    · intro h
      simp [queueStep, addSuggestion, List.length_append] at h
  | accept i =>
    have hle := filter_id_length_le i st.suggestions
    have hge := length_le_filter_id_add_one i st.suggestions hids.1
    simp only [queueStep, acceptSuggestion, queueInv]
    rcases Nat.eq_zero_or_pos st.suggestions.length with h0 | h1
    · have hc := hzero h0
      rw [List.length_eq_zero] at h0
      simp [h0, hc]
    · have ⟨hc0, hcn⟩ := hpos h1
      constructor
      · intro hpos'
        refine ⟨le_max_left _ _, ?_⟩
        have : (st.suggestions.filter (fun s => s.id ≠ i)).length + 1 ≥
            st.suggestions.length := hge
        rcases max_cases 0 (st.currentSuggestionIndex - 1) with ⟨hm, _⟩ | ⟨hm, _⟩ <;>
          rw [hm] <;> push_cast <;> omega
      · intro h0'
        have : st.suggestions.length ≤ 1 := by omega
        have h1' : st.suggestions.length = 1 := by omega
        have : st.currentSuggestionIndex = 0 := by
          have := hpos h1
          omega
        rcases max_cases 0 (st.currentSuggestionIndex - 1) with ⟨hm, _⟩ | ⟨hm, _⟩ <;>
          rw [hm] <;> omega
  | dismiss i =>
    have hne := hop i rfl
    have hlen : 0 < st.suggestions.length := List.length_pos.mpr hne
    have ⟨hc0, hcn⟩ := hpos hlen
    have hle := filter_id_length_le i st.suggestions
    have hge := length_le_filter_id_add_one i st.suggestions hids.1
    simp only [queueStep, dismissSuggestion, queueInv]
    rcases Nat.eq_or_lt_of_le hlen with h1 | h2
    · -- length = 1: newLength = 0, pointer reset to 0
      rw [if_pos (by push_cast; omega)]
      constructor
      · intro h
        constructor
        · omega
        · push_cast; omega
      · intro _; rfl
    · -- length ≥ 2: pointer clamped to min prev (length - 2)
      rw [if_neg (by push_cast; omega)]
      constructor
      · intro _
        constructor
        · rcases min_cases st.currentSuggestionIndex
              ((st.suggestions.length : Int) - 1 - 1) with ⟨hm, _⟩ | ⟨hm, _⟩ <;>
            rw [hm] <;> push_cast <;> omega
        · rcases min_cases st.currentSuggestionIndex
              ((st.suggestions.length : Int) - 1 - 1) with ⟨hm, _⟩ | ⟨hm, _⟩ <;>
            rw [hm] <;> push_cast <;> omega
      · intro h0'
        -- impossible: filtering removes at most one of ≥ 2 elements
        omega
  | next =>
    simp only [queueStep, nextSuggestion, queueInv]
    rcases Nat.eq_zero_or_pos st.suggestions.length with h0 | h1
    · rw [if_neg (by omega)]
      exact ⟨fun h => absurd h0 (by omega), fun _ => rfl⟩
    · have ⟨hc0, _⟩ := hpos h1
      rw [if_pos h1]
      refine ⟨fun _ => ⟨?_, ?_⟩, fun h => absurd h (by omega)⟩
      · exact Int.tmod_nonneg _ (by omega)
      · exact Int.tmod_lt_of_pos _ (by push_cast; omega)
  | prev =>
    simp only [queueStep, prevSuggestion, queueInv]
    rcases Nat.eq_zero_or_pos st.suggestions.length with h0 | h1
    · rw [if_neg (by omega)]
      exact ⟨fun h => absurd h0 (by omega), fun _ => rfl⟩
    · have ⟨hc0, _⟩ := hpos h1
      rw [if_pos h1]
      refine ⟨fun _ => ⟨?_, ?_⟩, fun h => absurd h (by omega)⟩
      · exact Int.tmod_nonneg _ (by push_cast; omega)
      · exact Int.tmod_lt_of_pos _ (by push_cast; omega)

theorem runQueue_inv (ops : List QueueOp) (st : SuggestionQueueState)
    (hinv : queueInv st) (hids : idsOk st) (hsafe : dismissSafe st ops = true) :
    queueInv (runQueue ops st) := by
  induction ops generalizing st with
  | nil => exact hinv
  | cons op ops ih =>
    simp only [dismissSafe, Bool.and_eq_true] at hsafe
    refine ih (queueStep st op) ?_ (idsOk_step st op hids) hsafe.2
    refine queueInv_step st op ⟨hinv.1, hinv.2⟩ hids ?_
    intro i hop
    subst hop
    simpa using hsafe.1

/-! ## Claim theorems -/

/-- C1: the code under test at the spec's duration scenario.  Starting at
t = 0 ms, pausing at t = 5000 (after 5 s of recording), resuming at t = 8000
(3 s of pause) and stopping at t = 10000 (2 s more of recording), the
duration reported by `useMediaRecorder`'s `onstop` handler is 10 s — the
wall-clock time since start, including the paused interval — and not the 7 s
(5 s + 2 s of active recording) that the specification requires. -/
theorem C1_reported_duration_includes_pause :
    (stopRecording 10000
        (resumeRecording (pauseRecording (startRecording 0 initialRecorder)))).2 = 10 ∧
      (10 : ℚ) ≠ 7 := by
  constructor
  · simp [stopRecording, resumeRecording, pauseRecording, startRecording, initialRecorder]
    norm_num
  · norm_num

/-- C2 (counterexample): dismissing from the empty queue violates the pointer
invariant: `dismissSuggestion` computes `newLength = 0 - 1 = -1`, which is not
`0`, and sets the pointer to `Math.min(0, -2) = -2`, so after
`dismiss` on the empty queue the queue is empty but the pointer is `-2`,
not `0`. -/
theorem C2_counterexample :
    (runQueue [QueueOp.dismiss 0] initialQueue).suggestions.length = 0 ∧
      (runQueue [QueueOp.dismiss 0] initialQueue).currentSuggestionIndex = -2 ∧
      ¬ queueInv (runQueue [QueueOp.dismiss 0] initialQueue) := by
  decide

/-- C2 (amended): after any finite interleaving of `add`, `accept`,
`dismiss`, `next`, `prev` starting from the empty queue — with `accept`,
`next`, `prev` unrestricted (any ids, present or not) and `dismiss` applied
with any id but only while the queue is nonempty — the pointer invariant
holds: `0 ≤ current < length` whenever `length > 0`, and `current = 0`
whenever `length = 0`. -/
theorem C2_queue_pointer_invariant (ops : List QueueOp)
    (hsafe : dismissSafe initialQueue ops = true) :
    queueInv (runQueue ops initialQueue) := by
  refine runQueue_inv ops initialQueue (by decide) ?_ hsafe
  exact ⟨List.nodup_nil, by intro s hs; simp [initialQueue] at hs⟩

theorem C2_queue_pointer_invariant_witness :
    dismissSafe initialQueue
        [QueueOp.add "a", QueueOp.add "b", QueueOp.next, QueueOp.dismiss 1,
          QueueOp.accept 5, QueueOp.prev, QueueOp.dismiss 99] = true ∧
      queueInv (runQueue
        [QueueOp.add "a", QueueOp.add "b", QueueOp.next, QueueOp.dismiss 1,
          QueueOp.accept 5, QueueOp.prev, QueueOp.dismiss 99] initialQueue) :=
  ⟨by decide, C2_queue_pointer_invariant _ (by decide)⟩

/-- C3 (counterexample): with the transcript appended as `"hey"` at t = 0 ms
and `"mike show that"` at t = 500 ms, the segment-growth scan fires `show`
once at t = 500; but the first rolling-window re-scan tick at t = 3000 still
sees the phrase inside its 5-second window, the 2-second cooldown (which
ended at t = 2500) no longer suppresses it, and the `show` callback fires a
second time — refuting "fires exactly once over the whole run". -/
theorem C3_counterexample :
    (runVoice [VoiceEvent.segment 0 "hey", VoiceEvent.segment 500 "mike show that",
        VoiceEvent.tick 3000] initialVoice).fires
        = [(500, VoiceCommand.onShow), (3000, VoiceCommand.onShow)] ∧
      (runVoice [VoiceEvent.segment 0 "hey", VoiceEvent.segment 500 "mike show that",
        VoiceEvent.tick 3000] initialVoice).fires.length ≠ 1 := by
  constructor
  · decide
  · decide

/-- C3 (amended): for the transcript appended as `"hey"` (t = 0 ms) then
`"mike show that"` (t = 500 ms), the segment-growth scan fires the `show`
callback exactly once; an identical wake phrase appended within 2 seconds of
the firing (t = 1000) does not fire any callback, and a rolling-window
re-scan within the cooldown (t = 2400) does not fire either.  (A re-scan
after the cooldown has elapsed can re-fire; see the counterexample.) -/
theorem C3_show_fires_once_under_cooldown :
    (runVoice [VoiceEvent.segment 0 "hey", VoiceEvent.segment 500 "mike show that",
        VoiceEvent.segment 1000 "mike show that", VoiceEvent.tick 2400] initialVoice).fires
      = [(500, VoiceCommand.onShow)] := by
  decide

/-- C4 (counterexample): six consecutive abnormal closes (code 1006, which is
neither 1000 nor 4001) of a fresh `TranscriptionWebSocket`: the first five
each schedule exactly one reconnect (with exponentially growing delays), but
the sixth schedules none — refuting "for every close event with an abnormal
code, exactly one reconnect attempt is scheduled". -/
theorem C4_counterexample :
    (wsRunCloses (List.replicate 6 1006) initialWSClient).2
        = [some 1000, some 2000, some 4000, some 8000, some 16000, none] ∧
      (1006 : Nat) ≠ 1000 ∧ (1006 : Nat) ≠ 4001 := by
  decide

/-- C4 (amended): on a close with code other than 1000 and 4001, the
`TranscriptionWebSocket` class schedules exactly one reconnect after the
configured delay `reconnectDelay * 2^n` (where `n` is the number of attempts
already made since the last successful open) *provided* fewer than
`maxReconnectAttempts = 5` attempts have been made; at or beyond the cap it
schedules none.  On a close with code 1000 or 4001 it schedules none.  The
`useTranscriptionWebSocket` hook, while enabled with a live session,
schedules exactly one reconnect after its fixed 2000 ms delay on an abnormal
code and none on 1000 / 4001. -/
theorem C4_reconnect_policy (c : WSClient) (code : Nat) (enabled hasSession : Bool) :
    (code ≠ 1000 → code ≠ 4001 → c.reconnectAttempts < maxReconnectAttempts →
        wsHandleClose code c =
          ({ reconnectAttempts := c.reconnectAttempts + 1 },
            some (reconnectDelay * 2 ^ c.reconnectAttempts))) ∧
      (code ≠ 1000 → code ≠ 4001 → maxReconnectAttempts ≤ c.reconnectAttempts →
        wsHandleClose code c = (c, none)) ∧
      (code = 1000 ∨ code = 4001 → wsHandleClose code c = (c, none)) ∧
      (enabled = true → hasSession = true → code ≠ 1000 → code ≠ 4001 →
        hookHandleClose enabled hasSession code = some 2000) ∧
      (code = 1000 ∨ code = 4001 → hookHandleClose enabled hasSession code = none) := by
  refine ⟨?_, ?_, ?_, ?_, ?_⟩
  · intro h1 h2 hlt
    rw [wsHandleClose, if_pos ⟨h1, h2⟩, attemptReconnect, if_neg (by omega)]
    simp
  · intro h1 h2 hge
    rw [wsHandleClose, if_pos ⟨h1, h2⟩, attemptReconnect, if_pos hge]
  · intro h
    rw [wsHandleClose, if_neg (by rcases h with h | h <;> simp [h])]
  · intro he hs h1 h2
    rw [hookHandleClose, if_pos ⟨by simp [he], by simp [hs], h1, h2⟩]
  · intro h
    rw [hookHandleClose, if_neg (by rcases h with h | h <;> simp [h])]

theorem C4_reconnect_policy_witness :
    wsHandleClose 1006 initialWSClient = ({ reconnectAttempts := 1 }, some 1000) ∧
      wsHandleClose 1006 { reconnectAttempts := 5 } = ({ reconnectAttempts := 5 }, none) ∧
      wsHandleClose 1000 initialWSClient = (initialWSClient, none) ∧
      hookHandleClose true true 1006 = some 2000 ∧
      hookHandleClose true true 4001 = none :=
  ⟨by
      have := (C4_reconnect_policy initialWSClient 1006 true true).1
        (by decide) (by decide) (by decide)
      simpa [initialWSClient, reconnectDelay] using this,
    (C4_reconnect_policy { reconnectAttempts := 5 } 1006 true true).2.1
      (by decide) (by decide) (by decide),
    (C4_reconnect_policy initialWSClient 1000 true true).2.2.1 (Or.inl rfl),
    (C4_reconnect_policy initialWSClient 1006 true true).2.2.2.1 rfl rfl
      (by decide) (by decide),
    (C4_reconnect_policy initialWSClient 4001 true true).2.2.2.2 (Or.inr rfl)⟩

/-- C5: for every source resolution `w × h` with `w > 0` and `h > 0`, the
crop rectangle `(sx, sy, sw, sh)` computed by `drawVideoFullFrame` has
`sw / sh` equal to the canvas aspect ratio `1920 / 1080` (exactly, over the
rationals) and lies entirely within the source bounds:
`0 ≤ sx`, `0 ≤ sy`, `sx + sw ≤ w`, `sy + sh ≤ h`. -/
theorem C5_fullframe_crop_aspect_and_bounds (w h : ℚ) (hw : 0 < w) (hh : 0 < h) :
    (fullFrameCrop w h).2.2.1 / (fullFrameCrop w h).2.2.2 = CANVAS_WIDTH / CANVAS_HEIGHT ∧
      0 ≤ (fullFrameCrop w h).1 ∧ 0 ≤ (fullFrameCrop w h).2.1 ∧
      (fullFrameCrop w h).1 + (fullFrameCrop w h).2.2.1 ≤ w ∧
      (fullFrameCrop w h).2.1 + (fullFrameCrop w h).2.2.2 ≤ h := by
  rw [fullFrameCrop]
  simp only [CANVAS_WIDTH, CANVAS_HEIGHT]
  split_ifs with hcmp
  · dsimp only
    rw [gt_iff_lt, div_lt_div_iff (by norm_num) hh] at hcmp
    refine ⟨?_, ?_, le_refl 0, ?_, by linarith⟩
    · field_simp
      ring
    · nlinarith
    · nlinarith
  · dsimp only
    rw [not_lt, div_le_div_iff hh (by norm_num)] at hcmp
    refine ⟨?_, le_refl 0, ?_, by linarith, ?_⟩
    · rw [div_eq_iff (by positivity : w / ((1920 : ℚ) / 1080) ≠ 0)]
      field_simp
      ring
    · nlinarith
    · nlinarith

theorem C5_fullframe_crop_witness :
    (0 : ℚ) < 1280 ∧ (0 : ℚ) < 720 ∧
      ((fullFrameCrop 1280 720).2.2.1 / (fullFrameCrop 1280 720).2.2.2 =
          CANVAS_WIDTH / CANVAS_HEIGHT ∧
        0 ≤ (fullFrameCrop 1280 720).1 ∧ 0 ≤ (fullFrameCrop 1280 720).2.1 ∧
        (fullFrameCrop 1280 720).1 + (fullFrameCrop 1280 720).2.2.1 ≤ 1280 ∧
        (fullFrameCrop 1280 720).2.1 + (fullFrameCrop 1280 720).2.2.2 ≤ 720) :=
  ⟨by norm_num, by norm_num,
    C5_fullframe_crop_aspect_and_bounds 1280 720 (by norm_num) (by norm_num)⟩

/-- C6: for every corner position and every size in the `PIP_SIZES` table
(small = 200, medium = 280, large = 360), the top-left computed by
`getPIPPosition` is a pure function of `(position, size)` and the
`size × size` rectangle lies within the 1920 × 1080 canvas with exactly the
32 px `PIP_MARGIN` from each of the two edges named by the position. -/
theorem C6_pip_placement :
    ∀ (pos : PIPPosition) (size : PIPSize),
      0 ≤ (getPIPPosition pos (pipSizes size)).1 ∧
        0 ≤ (getPIPPosition pos (pipSizes size)).2 ∧
        (getPIPPosition pos (pipSizes size)).1 + pipSizes size ≤ 1920 ∧
        (getPIPPosition pos (pipSizes size)).2 + pipSizes size ≤ 1080 ∧
        pipMarginsExact pos (getPIPPosition pos (pipSizes size)) (pipSizes size) := by
  intro pos size
  cases pos <;> cases size <;> decide

/-- C7: `setOverlayImage` with a non-null URL: if the image load fails, the
call rejects with the load error and the whole overlay state — previously
installed overlay image *and* overlay options — is exactly as before the
call; if the load succeeds, the new image becomes the current overlay and the
options are untouched. -/
theorem C7_setOverlayImage (load : String → Bool) (u : String)
    (st : CompositorOverlayState) :
    (load u = false →
        setOverlayImage load (some u) st = (st, .error "Failed to load overlay image")) ∧
      (load u = true →
        (setOverlayImage load (some u) st).1.overlayImage = some u ∧
          (setOverlayImage load (some u) st).1.overlayOptions = st.overlayOptions ∧
          (setOverlayImage load (some u) st).2 = .ok ()) := by
  constructor
  · intro hfail
    simp [setOverlayImage, hfail]
  · intro hok
    simp [setOverlayImage, hok]

theorem C7_setOverlayImage_witness :
    (setOverlayImage (fun _ => false) (some "https://img/x.png")
        { overlayImage := some "https://img/old.png"
          overlayOptions := { opacity := 1, scale := 1/2 } } =
      ({ overlayImage := some "https://img/old.png"
         overlayOptions := { opacity := 1, scale := 1/2 } },
        .error "Failed to load overlay image")) ∧
      ((setOverlayImage (fun _ => true) (some "https://img/x.png")
          { overlayImage := some "https://img/old.png"
            overlayOptions := { opacity := 1, scale := 1/2 } }).1.overlayImage =
        some "https://img/x.png") :=
  ⟨(C7_setOverlayImage (fun _ => false) "https://img/x.png" _).1 rfl,
    ((C7_setOverlayImage (fun _ => true) "https://img/x.png" _).2 rfl).1⟩

/-- C8: re-acquisition stops the old handle first.  If a webcam (resp.
screen) handle with tracks `oldTracks` exists and the new acquisition
succeeds with fresh tracks `newTracks`, then afterwards the ref of that kind
holds exactly the new track set, every track of the previous set is stopped,
and every new track is live. -/
theorem C8_reacquisition_single_live_set (st : MediaDevicesState)
    (oldTracks newTracks : List Nat)
    (hfresh : ∀ tr ∈ newTracks, tr ∉ st.stopped ∧ tr ∉ oldTracks) :
    (st.webcamRef = some oldTracks →
        (requestWebcam (.ok newTracks) st).webcamRef = some newTracks ∧
          (∀ tr ∈ oldTracks, ¬ trackLive (requestWebcam (.ok newTracks) st) tr) ∧
          (∀ tr ∈ newTracks, trackLive (requestWebcam (.ok newTracks) st) tr)) ∧
      (st.screenRef = some oldTracks →
        (requestScreen (.ok newTracks) st).screenRef = some newTracks ∧
          (∀ tr ∈ oldTracks, ¬ trackLive (requestScreen (.ok newTracks) st) tr) ∧
          (∀ tr ∈ newTracks, trackLive (requestScreen (.ok newTracks) st) tr)) := by
  constructor
  · intro hold
    refine ⟨by simp [requestWebcam, hold], ?_, ?_⟩
    · intro tr htr
      simp [requestWebcam, hold, stopTracks, trackLive, htr]
    · intro tr htr
      have := hfresh tr htr
      simp [requestWebcam, hold, stopTracks, trackLive, this.1, this.2]
  · intro hold
    refine ⟨by simp [requestScreen, hold], ?_, ?_⟩
    · intro tr htr
      simp [requestScreen, hold, stopTracks, trackLive, htr]
    · intro tr htr
      have := hfresh tr htr
      simp [requestScreen, hold, stopTracks, trackLive, this.1, this.2]

theorem C8_reacquisition_witness :
    (requestWebcam (.ok [3, 4])
        { webcamRef := some [1, 2], screenRef := none, stopped := [], error := none }).webcamRef
        = some [3, 4] ∧
      (∀ tr ∈ [1, 2], ¬ trackLive (requestWebcam (.ok [3, 4])
        { webcamRef := some [1, 2], screenRef := none, stopped := [], error := none }) tr) ∧
      (∀ tr ∈ [3, 4], trackLive (requestWebcam (.ok [3, 4])
        { webcamRef := some [1, 2], screenRef := none, stopped := [], error := none }) tr) :=
  (C8_reacquisition_single_live_set
      { webcamRef := some [1, 2], screenRef := none, stopped := [], error := none }
      [1, 2] [3, 4] (by decide)).1 rfl

/-- C9 (counterexample): a failed *re*-acquisition does change the tracks'
liveness.  With an existing webcam handle holding live track 7, a failing
`requestWebcam` (permission denied) leaves track 7 stopped after the call —
it was live before — because the old handle is stopped before the platform
request is awaited.  This refutes "the set of live handles and their tracks'
liveness is the same after the failed call as before it". -/
theorem C9_counterexample :
    trackLive
        { webcamRef := some [7], screenRef := none, stopped := [], error := none } 7 ∧
      ¬ trackLive (requestWebcam (.error "Permission denied")
        { webcamRef := some [7], screenRef := none, stopped := [], error := none }) 7 := by
  decide

/-- C9 (amended): a failing acquisition surfaces a human-readable message
(stored in `error`, and the exception is rethrown to the caller) and leaves
the handle refs unchanged; when no handle of that kind existed, the tracks'
liveness is also unchanged (the state changes only in the `error` field).
When a handle of that kind already existed, its tracks have been stopped by
the stop-before-request step, so after the failed call the old handle's
tracks are no longer live. -/
theorem C9_failed_acquisition (st : MediaDevicesState) (msg : String) :
    ((requestWebcam (.error msg) st).webcamRef = st.webcamRef ∧
        (requestWebcam (.error msg) st).screenRef = st.screenRef ∧
        (requestWebcam (.error msg) st).error = some msg) ∧
      (st.webcamRef = none → requestWebcam (.error msg) st = { st with error := some msg }) ∧
      (∀ oldTracks, st.webcamRef = some oldTracks →
        (requestWebcam (.error msg) st).stopped = st.stopped ++ oldTracks) := by
  refine ⟨⟨?_, ?_, ?_⟩, ?_, ?_⟩
  · cases hw : st.webcamRef <;> simp [requestWebcam, hw, stopTracks]
  · cases hw : st.webcamRef <;> simp [requestWebcam, hw, stopTracks]
  · cases hw : st.webcamRef <;> simp [requestWebcam, hw, stopTracks]
  · intro hnone
    simp [requestWebcam, hnone]
  · intro oldTracks hold
    simp [requestWebcam, hold, stopTracks]

theorem C9_failed_acquisition_witness :
    ((requestWebcam (Except.error "Permission denied")
          { webcamRef := none, screenRef := none, stopped := [], error := none }).webcamRef
        = none ∧
      (requestWebcam (Except.error "Permission denied")
          { webcamRef := none, screenRef := none, stopped := [], error := none }).error
        = some "Permission denied") ∧
      requestWebcam (Except.error "Permission denied")
          { webcamRef := none, screenRef := none, stopped := [], error := none }
        = { webcamRef := none, screenRef := none, stopped := [],
            error := some "Permission denied" } :=
  ⟨⟨(C9_failed_acquisition
        { webcamRef := none, screenRef := none, stopped := [], error := none }
        "Permission denied").1.1,
    (C9_failed_acquisition
        { webcamRef := none, screenRef := none, stopped := [], error := none }
        "Permission denied").1.2.2⟩,
    (C9_failed_acquisition
        { webcamRef := none, screenRef := none, stopped := [], error := none }
        "Permission denied").2.1 rfl⟩

/-- From a client with `a` attempts already made, a run of abnormal closes
schedules the delays `reconnectDelay * 2^a, …` until the cap. -/
theorem wsRunCloses_abnormal (codes : List Nat) (a : Nat)
    (h : ∀ code ∈ codes, code ≠ 1000 ∧ code ≠ 4001) :
    (wsRunCloses codes { reconnectAttempts := a }).2.filterMap id
      = (List.range' a (min codes.length (maxReconnectAttempts - a))).map
          (fun i => reconnectDelay * 2 ^ i) := by
  induction codes generalizing a with
  | nil => simp [wsRunCloses]
  | cons code rest ih =>
    have hc := h code (List.mem_cons_self code rest)
    have hrest : ∀ c ∈ rest, c ≠ 1000 ∧ c ≠ 4001 :=
      fun c hcm => h c (List.mem_cons_of_mem code hcm)
    rw [wsRunCloses]
    simp only [wsHandleClose, if_pos hc, attemptReconnect]
    by_cases hcap : a ≥ maxReconnectAttempts
    · rw [if_pos hcap]
      simp only [List.filterMap_cons]
      rw [ih a hrest]
      have h1 : min rest.length (maxReconnectAttempts - a) = 0 := by omega
      have h2 : min (rest.length + 1) (maxReconnectAttempts - a) = 0 := by omega
      simp [h1, h2]
    · rw [if_neg hcap]
      have h2 : min (rest.length + 1) (maxReconnectAttempts - a)
          = min rest.length (maxReconnectAttempts - (a + 1)) + 1 := by
        simp only [maxReconnectAttempts] at hcap ⊢
        omega
      simp only [List.filterMap_cons, id_eq, List.length_cons]
      rw [ih (a + 1) hrest, h2, List.range'_succ]
      simp

/-- C10: reconnection is capped and exponential.  For any run of consecutive
abnormal closures (codes other than 1000 and 4001) of a fresh
`TranscriptionWebSocket` with no intervening successful open, the scheduled
reconnect delays are exactly `reconnectDelay * 2^(n-1)` for the n-th attempt
(1-indexed), at most `maxReconnectAttempts = 5` of them; a successful open
resets the attempt counter to 0, so a subsequent run of abnormal closures
schedules up to 5 further attempts with the same delays. -/
theorem C10_reconnect_cap_and_reset (codes codes' : List Nat)
    (h : ∀ code ∈ codes, code ≠ 1000 ∧ code ≠ 4001)
    (h' : ∀ code ∈ codes', code ≠ 1000 ∧ code ≠ 4001) :
    (wsRunCloses codes initialWSClient).2.filterMap id
        = (List.range (min codes.length maxReconnectAttempts)).map
            (fun i => reconnectDelay * 2 ^ i) ∧
      ((wsRunCloses codes initialWSClient).2.filterMap id).length ≤ maxReconnectAttempts ∧
      (wsHandleOpen (wsRunCloses codes initialWSClient).1).reconnectAttempts = 0 ∧
      (wsRunCloses codes' (wsHandleOpen (wsRunCloses codes initialWSClient).1)).2.filterMap id
        = (List.range (min codes'.length maxReconnectAttempts)).map
            (fun i => reconnectDelay * 2 ^ i) := by
  have key : ∀ (cs : List Nat), (∀ code ∈ cs, code ≠ 1000 ∧ code ≠ 4001) →
      (wsRunCloses cs initialWSClient).2.filterMap id
        = (List.range (min cs.length maxReconnectAttempts)).map
            (fun i => reconnectDelay * 2 ^ i) := by
    intro cs hcs
    have := wsRunCloses_abnormal cs 0 hcs
    rw [List.range_eq_range']
    simpa [initialWSClient] using this
  refine ⟨key codes h, ?_, rfl, ?_⟩
  · rw [key codes h]
    simp only [List.length_map, List.length_range]
    omega
  · show (wsRunCloses codes' { reconnectAttempts := 0 }).2.filterMap id = _
    have := wsRunCloses_abnormal codes' 0 h'
    rw [List.range_eq_range']
    simpa using this

theorem C10_reconnect_cap_witness :
    (∀ code ∈ List.replicate 7 1006, code ≠ 1000 ∧ code ≠ 4001) ∧
      (wsRunCloses (List.replicate 7 1006) initialWSClient).2.filterMap id
        = [1000, 2000, 4000, 8000, 16000] ∧
      ((wsRunCloses (List.replicate 7 1006) initialWSClient).2.filterMap id).length ≤ 5 :=
  ⟨by decide,
    by
      have := (C10_reconnect_cap_and_reset (List.replicate 7 1006) []
        (by decide) (by simp)).1
      simpa [maxReconnectAttempts, reconnectDelay, List.range_succ] using this,
    by
      have := (C10_reconnect_cap_and_reset (List.replicate 7 1006) []
        (by decide) (by simp)).2.1
      simpa [maxReconnectAttempts] using this⟩

end HotMike
